import Mathlib

/-!
Verification of the background-replacement service.

The repository is an Express server (src/server.js) whose POST /generate
handler composites an object image onto a background via a remote
image-synthesis call, resizes the result, and cleans up temporary files.
The design document additionally specifies a batch orchestration layer
(BatchExecutor, BatchCoordinator, ResultSink) that has no counterpart under
src/; those components are modelled here from the design document and are
marked as such. Everything else is a direct shallow embedding of
src/server.js.
-/

namespace BackgroundReplacement

/-- Image dimensions, as in the `resolutions` table of src/server.js. -/
structure Resolution where
  width : Nat
  height : Nat
deriving DecidableEq, Repr

/-- The fixed quality lookup table from src/server.js lines 79-83. -/
def resolutions : List (String × Resolution) :=
  [("1k", { width := 1024, height := 1024 }),
   ("2k", { width := 2048, height := 2048 }),
   ("4k", { width := 4096, height := 4096 })]

/-- Names of the members every object literal inherits from
Object.prototype, which a JS bracket lookup finds on the prototype chain
when no own property matches; each is a function or object and therefore
truthy. -/
def objectProtoKeys : List String :=
  ["constructor", "hasOwnProperty", "isPrototypeOf", "propertyIsEnumerable",
   "toLocaleString", "toString", "valueOf", "__defineGetter__",
   "__defineSetter__", "__lookupGetter__", "__lookupSetter__", "__proto__"]

/-- The value the JS expression resolutions[quality] || resolutions["2k"]
can evaluate to: one of the dimension records, or a member inherited from
Object.prototype (a truthy function or object with no width or height
fields). -/
inductive ResolutionValue where
  | dims (r : Resolution)
  | protoMember (name : String)
deriving DecidableEq, Repr

/-- Embedding of getResolution (src/server.js lines 78-85):
`resolutions[quality] || resolutions["2k"]` under JS property-access
semantics. An own key returns its dimension record; a name inherited from
Object.prototype is found on the prototype chain and is truthy, so the ||
fallback does not fire and the inherited (non-record) member itself is
returned; any other value — including an absent quality, whose bracket
lookup coerces to the non-existent key undefined — misses and falls back to
the 2k record. -/
def getResolution (quality : Option String) : ResolutionValue :=
  match quality with
  | some q =>
      match resolutions.lookup q with
      | some r => .dims r
      | none =>
          if q ∈ objectProtoKeys then .protoMember q
          else .dims { width := 2048, height := 2048 }
  | none => .dims { width := 2048, height := 2048 }

/-- Rendering of a dimension record as the response reports it: width, an
x, and height. -/
def resolutionString (r : Resolution) : String :=
  Nat.repr r.width ++ "x" ++ Nat.repr r.height

/-- The width field of the looked-up value as a JS template string renders
it: the number for a dimension record, the text undefined for an inherited
prototype member (whose width property is absent). -/
def widthText (v : ResolutionValue) : String :=
  match v with
  | .dims r => Nat.repr r.width
  | .protoMember _ => "undefined"

/-- The height field of the looked-up value as a JS template string renders
it. -/
def heightText (v : ResolutionValue) : String :=
  match v with
  | .dims r => Nat.repr r.height
  | .protoMember _ => "undefined"

/-- The resolution string interpolated into the JSON response on
src/server.js line 206: resolution.width, an x, resolution.height. -/
def resolutionTextOf (v : ResolutionValue) : String :=
  widthText v ++ "x" ++ heightText v

/-- Rendering of the `quality` request field inside a JS template string:
an undefined value renders as the literal text undefined. -/
def qualityText (quality : Option String) : String :=
  match quality with
  | some q => q
  | none => "undefined"

/-- Modelled from the spec: WorkItem (section 3). The batch layer has no
counterpart under src/, so its data model follows the design document: one
unit of work is an id unique within the batch, the object payload, and the
original source name. -/
structure WorkItem where
  id : String
  objectPayload : List Nat
  originalName : String
deriving DecidableEq, Repr

/-- Modelled from the spec: the per-item error taxonomy of section 7 that
the executor records in Failure outcomes (external call failed, or the
resize/encode step failed afterwards). -/
inductive CoreError where
  | externalError (msg : String)
  | encodingError (msg : String)
deriving DecidableEq, Repr

/-- Modelled from the spec: the ItemOutcome status tag (section 3) — a
Success carries the output reference, a Failure carries the error, and the
tag makes exactly one of the two present. -/
inductive ItemStatus where
  | success (outputRef : String)
  | failure (err : CoreError)
deriving DecidableEq, Repr

/-- Whether the status tag is Success. -/
def ItemStatus.isSuccess : ItemStatus → Bool
  | .success _ => true
  | .failure _ => false

/-- Modelled from the spec: ItemOutcome (section 3), the terminal record
for one WorkItem. -/
structure ItemOutcome where
  itemId : String
  status : ItemStatus
deriving DecidableEq, Repr

/-- Modelled from the spec: outcome construction in the executor (4.1) — a
captured per-item result is converted into an ItemOutcome value rather than
rethrown. -/
def mkOutcome (it : WorkItem) (r : Except CoreError String) : ItemOutcome :=
  match r with
  | .ok ref => { itemId := it.id, status := .success ref }
  | .error e => { itemId := it.id, status := .failure e }

/-- Modelled from the spec: the bound per-item operation of 4.1/4.2 — the
external composite call followed, on success, by the resize/encode step;
a failure of either stage is captured in the returned value with the
matching error tag. -/
def compositeThenResize (composite : WorkItem → Except String (List Nat))
    (resize : List Nat → Except String String) (it : WorkItem) :
    Except CoreError String :=
  match composite it with
  | .error m => .error (.externalError m)
  | .ok bytes =>
      match resize bytes with
      | .error m => .error (.encodingError m)
      | .ok ref => .ok ref

/-- Modelled from the spec: the outcome view of BatchExecutor.run (4.1) —
every item produces exactly one outcome, and the outcome sequence is
reordered back to input order (index-aligned with the item list) regardless
of completion timing. -/
def runExecutor (items : List WorkItem)
    (op : WorkItem → Except CoreError String) : List ItemOutcome :=
  items.map (fun it => mkOutcome it (op it))

/-- Modelled from the spec: BatchRequest (section 3); a missing background
payload is represented by none. -/
structure BatchRequest where
  backgroundPayload : Option (List Nat)
  items : List WorkItem
  prompt : String
  quality : Option String
  concurrencyLimit : Nat
  batchId : String

/-- Modelled from the spec: BatchResult (section 3). -/
structure BatchResult where
  batchId : String
  total : Nat
  succeeded : Nat
  failed : Nat
  outcomes : List ItemOutcome
  archiveRef : Option String

/-- Modelled from the spec: the error with which submit rejects a
structurally invalid request (4.2, section 7). -/
inductive SubmitError where
  | validationError (msg : String)
deriving DecidableEq, Repr

/-- Modelled from the spec: structural validity of a BatchRequest (4.2) —
non-empty item list, background present, concurrency limit at least 1. -/
def validRequest (req : BatchRequest) : Bool :=
  !req.items.isEmpty && req.backgroundPayload.isSome &&
    decide (1 ≤ req.concurrencyLimit)

/-- Modelled from the spec: the observable calls the coordinator makes to
its collaborators (ResultSink and BatchExecutor), recorded in order so that
the before-any-work property of 4.2 can be stated. -/
inductive Interaction where
  | sinkPrepare (batchId : String)
  | executorRun (itemCount : Nat)
  | sinkStore (filename : String)
  | sinkFinalize (batchId : String)
deriving DecidableEq, Repr

/-- Modelled from the spec: BatchCoordinator.submit (4.2) — validate first
and reject with a ValidationError before any collaborator interaction;
otherwise prepare the sink, run the executor, store each Success output,
finalize into an archive when at least one item succeeded, and assemble the
BatchResult. The second component lists every collaborator interaction in
order. -/
def submit (req : BatchRequest) (op : WorkItem → Except CoreError String) :
    Except SubmitError BatchResult × List Interaction :=
  if validRequest req then
    let outcomes := runExecutor req.items op
    let succeeded := outcomes.countP (fun o => o.status.isSuccess)
    let failed := outcomes.countP (fun o => !o.status.isSuccess)
    let archiveRef :=
      if 1 ≤ succeeded then some ("archives/" ++ req.batchId ++ ".zip") else none
    let stores := (outcomes.filter (fun o => o.status.isSuccess)).map
      (fun o => Interaction.sinkStore (req.batchId ++ "-" ++ o.itemId))
    let tail := if 1 ≤ succeeded then [Interaction.sinkFinalize req.batchId] else []
    (Except.ok
      { batchId := req.batchId, total := req.items.length, succeeded := succeeded,
        failed := failed, outcomes := outcomes, archiveRef := archiveRef },
     Interaction.sinkPrepare req.batchId ::
       Interaction.executorRun req.items.length :: (stores ++ tail))
  else
    (Except.error (.validationError "structurally invalid batch request"), [])

/-- Modelled from the spec: the state of the bounded worker pool (section 5)
— items not yet admitted, items whose external operation is in flight, and
settled outcomes. -/
structure SchedState where
  pending : List WorkItem
  inFlight : List WorkItem
  settled : List ItemOutcome

/-- Modelled from the spec: one scheduling transition of the worker pool
(4.1, section 5). A start admits the next pending item only when fewer than
K items are in flight; a finish settles one in-flight item into its
outcome. -/
inductive SchedStep (K : Nat) (op : WorkItem → Except CoreError String) :
    SchedState → SchedState → Prop
  | start (it : WorkItem) (rest fl : List WorkItem) (d : List ItemOutcome)
      (hfree : fl.length < K) :
      SchedStep K op ⟨it :: rest, fl, d⟩ ⟨rest, it :: fl, d⟩
  | finish (p l₁ l₂ : List WorkItem) (it : WorkItem) (d : List ItemOutcome) :
      SchedStep K op ⟨p, l₁ ++ it :: l₂, d⟩ ⟨p, l₁ ++ l₂, mkOutcome it (op it) :: d⟩

/-- Modelled from the spec: the initial pool state — all items pending,
nothing in flight, nothing settled. -/
def initState (items : List WorkItem) : SchedState :=
  { pending := items, inFlight := [], settled := [] }

/-- One part of a Gemini candidate content, as inspected by the handler:
either inline image data (abstracted by the decoded image's width and
height) or a text part carrying its string. -/
inductive GeminiPart where
  | inlineData (width height : Nat)
  | text (s : String)
deriving DecidableEq, Repr

/-- The content object of a candidate; its parts array may be absent. -/
structure CandidateContent where
  parts : Option (List GeminiPart)
deriving DecidableEq, Repr

/-- One candidate of the API response; its content may be absent. -/
structure Candidate where
  content : Option CandidateContent
deriving DecidableEq, Repr

/-- The axios response inspected by the handler: HTTP status and the
candidates array of the response body (possibly absent). -/
structure ApiResponse where
  status : Nat
  candidates : Option (List Candidate)
deriving DecidableEq, Repr

/-- JS truthiness of part.text as used in the filter on src/server.js line
217 and in the else-if of line 208: present and non-empty. -/
def partHasText (p : GeminiPart) : Bool :=
  match p with
  | .text s => !(s == "")
  | .inlineData _ _ => false

/-- The text carried by a part (empty for inline data). -/
def textOf (p : GeminiPart) : String :=
  match p with
  | .text s => s
  | .inlineData _ _ => ""

/-- The first inlineData part found by the for-loop of src/server.js lines
165-211, which runs only when the candidates array is non-empty and
candidates[0] has a content object with a parts array. -/
def firstInlineOf (resp : ApiResponse) : Option (Nat × Nat) :=
  match resp.candidates with
  | some (c :: _) =>
      match c.content with
      | some ct =>
          match ct.parts with
          | some ps =>
              ps.findSome? (fun p =>
                match p with
                | .inlineData w h => some (w, h)
                | .text _ => none)
          | none => none
      | none => none
  | _ => none

/-- An operation performed on the results directory, in program order. -/
inductive StorageOp where
  | write (path : String)
  | read (path : String)
  | delete (path : String)
deriving DecidableEq, Repr

/-- The body of the JSON response sent by the /generate handler, abstracted
to its shape: the success JSON (imageUrl, filename, resolution string), the
text-instead-of-image 500 error with its 200-character excerpt, the
no-image 500 error, the non-200 API status error, and the catch-block 500
error carrying the thrown message. -/
inductive RespBody where
  | successJson (imageUrl filename resolution : String)
  | apiTextError (excerpt : String)
  | noImageError
  | apiStatusError (status : Nat)
  | caughtError (msg : String)
deriving DecidableEq, Repr

/-- Observable result of one run of the /generate handler: HTTP status,
response body, every fs.unlinkSync target in call order, every operation on
the results directory in program order, and the dimensions of the processed
file when one was written. -/
structure HandlerResult where
  status : Nat
  body : RespBody
  unlinked : List String
  resultsOps : List StorageOp
  storedDims : Option (Nat × Nat)
deriving DecidableEq, Repr

/-- The intermediate raw-result filename of src/server.js line 176. -/
def originalFilename (t : Nat) : String :=
  "result-" ++ Nat.repr t ++ ".png"

/-- The raw-result path of src/server.js line 177 (results directory). -/
def originalPathOf (t : Nat) : String :=
  "results/" ++ originalFilename t

/-- The processed filename of src/server.js line 183: the timestamp and the
raw quality field interpolated into a template string (an absent quality
interpolates as the text undefined). -/
def processedFilename (t : Nat) (quality : Option String) : String :=
  "result-" ++ Nat.repr t ++ "-" ++ qualityText quality ++ ".png"

/-- The processed-result path of src/server.js line 184. -/
def processedPathOf (t : Nat) (quality : Option String) : String :=
  "results/" ++ processedFilename t quality

/-- Dimension behavior of the resize step. src/server.js lines 186-192
delegate to the sharp library with fit inside and withoutEnlargement; per
that library's documented contract, an image already within the target box
keeps its own size, and a larger image is scaled down proportionally to fit
inside the box (the integer rounding of the scaled side below is not relied
upon by any theorem). -/
def fitInsideDims (w h tw th : Nat) : Nat × Nat :=
  if w ≤ tw ∧ h ≤ th then (w, h)
  else if w * th ≤ tw * h then (max 1 ((w * th) / h), th)
  else (tw, max 1 ((h * tw) / w))

/-- Dimensions of the processed file for a given looked-up resolution
value: a dimension record constrains the resize to its box, while a
prototype-chain hit passes resolution.width and resolution.height as
undefined to the resize call, which per the sharp library's documented
contract leaves both dimensions unconstrained, so the image keeps its own
size. -/
def resizeDims (v : ResolutionValue) (w h : Nat) : Nat × Nat :=
  match v with
  | .dims r => fitInsideDims w h r.width r.height
  | .protoMember _ => (w, h)

/-- Shallow embedding of the POST /generate handler of src/server.js lines
96-256, for one request whose two uploads were stored at objectPath and
backgroundPath. The axios call is abstracted by its result: an exception
(Except.error, handled by the catch block, which removes the uploaded
files) or a response. On a 200 response with an inline image part the
handler writes the raw result, resizes it (reading the raw file back) into
the processed file, deletes the two uploads and the raw file, and responds
with the rendered resolution string. With no inline part it responds 500 —
with a text excerpt when candidates[0] has a non-empty-text part, with the
no-image error otherwise — deleting nothing; accessing a missing parts
array in that second check throws and lands in the catch block. A non-200
status responds with that status and deletes nothing. -/
def generate (objectPath backgroundPath : String) (quality : Option String)
    (api : Except String ApiResponse) (t : Nat) : HandlerResult :=
  match api with
  | .error msg =>
      { status := 500, body := .caughtError msg,
        unlinked := [objectPath, backgroundPath], resultsOps := [],
        storedDims := none }
  | .ok resp =>
      if resp.status = 200 then
        match firstInlineOf resp with
        | some (w, h) =>
            let resolution := getResolution quality
            { status := 200,
              body := .successJson ("/results/" ++ processedFilename t quality)
                (processedFilename t quality) (resolutionTextOf resolution),
              unlinked := [objectPath, backgroundPath, originalPathOf t],
              resultsOps :=
                [.write (originalPathOf t), .read (originalPathOf t),
                 .write (processedPathOf t quality), .delete (originalPathOf t)],
              storedDims := some (resizeDims resolution w h) }
        | none =>
            match resp.candidates with
            | some (c :: _) =>
                match c.content with
                | some ct =>
                    match ct.parts with
                    | some ps =>
                        match ps.filter partHasText with
                        | p :: _ =>
                            { status := 500, body := .apiTextError ((textOf p).take 200),
                              unlinked := [], resultsOps := [], storedDims := none }
                        | [] =>
                            { status := 500, body := .noImageError,
                              unlinked := [], resultsOps := [], storedDims := none }
                    | none =>
                        { status := 500,
                          body := .caughtError "TypeError: cannot read parts of undefined",
                          unlinked := [objectPath, backgroundPath],
                          resultsOps := [], storedDims := none }
                | none =>
                    { status := 500, body := .noImageError,
                      unlinked := [], resultsOps := [], storedDims := none }
            | _ =>
                { status := 500, body := .noImageError,
                  unlinked := [], resultsOps := [], storedDims := none }
      else
        { status := resp.status, body := .apiStatusError resp.status,
          unlinked := [], resultsOps := [], storedDims := none }

/-- The filename field of the success JSON, when the run succeeded. -/
def filenameOf (r : HandlerResult) : Option String :=
  match r.body with
  | .successJson _ fn _ => some fn
  | _ => none

/-- Concrete work item used to evaluate the theorems. -/
def demoItemA : WorkItem :=
  { id := "a", objectPayload := [1, 2], originalName := "cat.png" }

/-- Second concrete work item. -/
def demoItemB : WorkItem :=
  { id := "b", objectPayload := [3], originalName := "dog.png" }

/-- A per-item operation that succeeds on every item. -/
def demoOkOp : WorkItem → Except CoreError String :=
  fun it => Except.ok ("refs/" ++ it.id)

/-- A per-item operation that fails on item a and succeeds elsewhere. -/
def demoFailOp : WorkItem → Except CoreError String :=
  fun it =>
    if it.id = "a" then Except.error (.externalError "remote down")
    else Except.ok ("refs/" ++ it.id)

/-- A composite collaborator that returns the object payload unchanged. -/
def demoComposite : WorkItem → Except String (List Nat) :=
  fun it => Except.ok it.objectPayload

/-- A resize collaborator that always fails. -/
def demoResizeBad : List Nat → Except String String :=
  fun _ => Except.error "encode boom"

/-- A resize collaborator that always succeeds. -/
def demoResizeOk : List Nat → Except String String :=
  fun _ => Except.ok "stored"

/-- A structurally valid concrete batch request with two items. -/
def demoValidReq : BatchRequest :=
  { backgroundPayload := some [7], items := [demoItemA, demoItemB],
    prompt := "p", quality := some "2k", concurrencyLimit := 1,
    batchId := "batch1" }

/-- A concrete batch request with an empty item list. -/
def demoEmptyReq : BatchRequest :=
  { backgroundPayload := some [7], items := [], prompt := "p",
    quality := some "2k", concurrencyLimit := 1, batchId := "batch2" }

/-- A 200 API response whose first candidate carries a 900 by 600 inline
image. -/
def respInline : ApiResponse :=
  { status := 200,
    candidates := some [{ content := some { parts := some [.inlineData 900 600] } }] }

/-- A 200 API response carrying a 500 by 500 inline image. -/
def respSmall : ApiResponse :=
  { status := 200,
    candidates := some [{ content := some { parts := some [.inlineData 500 500] } }] }

/-- A 200 API response with an empty candidates array (the no-image path). -/
def respNoCand : ApiResponse :=
  { status := 200, candidates := some [] }

/-!
Theorems. Each claim of the specification is settled by exactly one theorem
below; auxiliary lemmas are shared.
-/

/-- Helper: the outcome id produced by mkOutcome is the item id. -/
theorem mkOutcome_itemId (it : WorkItem) (r : Except CoreError String) :
    (mkOutcome it r).itemId = it.id := by
  cases r <;> rfl

/-- Helper: counting the outcomes satisfying a Bool predicate and those
refuting it partitions the list. -/
theorem countP_partition (p : ItemOutcome → Bool) (l : List ItemOutcome) :
    l.countP p + l.countP (fun o => !(p o)) = l.length := by
  induction l with
  | nil => simp
  | cons a l ih =>
    by_cases h : p a <;> simp [List.countP_cons, h] <;> omega

/-- C5 counterexample: at the reachable input toString the JS lookup finds
the inherited truthy Object.prototype member on the prototype chain, the ||
fallback does not fire, and no 2048 by 2048 dimension record is produced —
the universal 2k default of the claim fails. -/
theorem getResolutionProtoLeak :
    getResolution (some "toString") = ResolutionValue.protoMember "toString" ∧
    getResolution (some "toString") ≠
      ResolutionValue.dims { width := 2048, height := 2048 } := by
  constructor <;> decide

/-- C5 amended: the mapping sends 1k, 2k and 4k to the three fixed squares
and every other value, including an absent one, to 2048 by 2048 — except
the names of members inherited from Object.prototype, for which the lookup
returns the inherited truthy member and no dimension record at all. -/
theorem getResolutionTotal :
    getResolution (some "1k") = .dims { width := 1024, height := 1024 } ∧
    getResolution (some "2k") = .dims { width := 2048, height := 2048 } ∧
    getResolution (some "4k") = .dims { width := 4096, height := 4096 } ∧
    getResolution none = .dims { width := 2048, height := 2048 } ∧
    (∀ s : String, s ≠ "1k" → s ≠ "2k" → s ≠ "4k" → s ∉ objectProtoKeys →
      getResolution (some s) = .dims { width := 2048, height := 2048 }) ∧
    (∀ s : String, s ∈ objectProtoKeys →
      getResolution (some s) = .protoMember s) := by
  refine ⟨rfl, rfl, rfl, rfl, ?_, ?_⟩
  · intro s h1 h2 h4 hproto
    simp [getResolution, resolutions, List.lookup,
      beq_eq_false_iff_ne.mpr h1, beq_eq_false_iff_ne.mpr h2,
      beq_eq_false_iff_ne.mpr h4, hproto]
  · intro s hs
    simp only [objectProtoKeys, List.mem_cons, List.mem_singleton,
      List.not_mem_nil, or_false] at hs
    rcases hs with rfl | rfl | rfl | rfl | rfl | rfl | rfl | rfl | rfl |
      rfl | rfl | rfl <;> rfl

/-- Witness for C5 at the unrecognized value 8k (2k default) and at the
prototype member toString (inherited member, no record). -/
theorem getResolutionTotal_witness :
    getResolution (some "8k") = .dims { width := 2048, height := 2048 } ∧
    getResolution (some "toString") = ResolutionValue.protoMember "toString" :=
  ⟨getResolutionTotal.2.2.2.2.1 "8k" (by decide) (by decide) (by decide)
      (by decide),
   getResolutionTotal.2.2.2.2.2 "toString" (by decide)⟩

/-- C2: for every valid batch request with N items, submit returns a
BatchResult with total = N, an outcome list of length N index-aligned with
the input items, succeeded + failed = total, and an archive reference
present exactly when at least one item succeeded. -/
theorem batchResultInvariants (req : BatchRequest)
    (op : WorkItem → Except CoreError String)
    (hvalid : validRequest req = true) :
    ∃ r : BatchResult, (submit req op).1 = Except.ok r ∧
      r.total = req.items.length ∧
      r.outcomes.length = req.items.length ∧
      (∀ i : Nat, (r.outcomes[i]?).map ItemOutcome.itemId =
        (req.items[i]?).map WorkItem.id) ∧
      r.succeeded + r.failed = r.total ∧
      (r.archiveRef.isSome ↔ 1 ≤ r.succeeded) := by
  simp only [submit, hvalid, eq_self_iff_true, if_true]
  refine ⟨_, rfl, rfl, ?_, ?_, ?_, ?_⟩
  · simp [runExecutor]
  · intro i
    simp [runExecutor, List.getElem?_map, Option.map_map, Function.comp_def,
      mkOutcome_itemId]
  · simpa [runExecutor] using
      countP_partition (fun o => o.status.isSuccess)
        (runExecutor req.items op)
  · by_cases h : 1 ≤ (runExecutor req.items op).countP (fun o => o.status.isSuccess) <;>
      simp [h]

/-- Witness for C2 on the two-item request with one failing item. -/
theorem batchResultInvariants_witness :
    ∃ r : BatchResult, (submit demoValidReq demoFailOp).1 = Except.ok r ∧
      r.total = demoValidReq.items.length ∧
      r.outcomes.length = demoValidReq.items.length ∧
      (∀ i : Nat, (r.outcomes[i]?).map ItemOutcome.itemId =
        (demoValidReq.items[i]?).map WorkItem.id) ∧
      r.succeeded + r.failed = r.total ∧
      (r.archiveRef.isSome ↔ 1 ≤ r.succeeded) :=
  batchResultInvariants demoValidReq demoFailOp (by decide)

/-- C3: a structurally invalid batch request — empty item list, missing
background payload, or concurrency limit below 1 — is rejected with a
ValidationError and with an empty collaborator interaction trace: no
ResultSink or Executor call happens. -/
theorem invalidRequestFailsFast (req : BatchRequest)
    (op : WorkItem → Except CoreError String)
    (h : req.items = [] ∨ req.backgroundPayload = none ∨
      req.concurrencyLimit < 1) :
    (submit req op).1 =
      Except.error (.validationError "structurally invalid batch request") ∧
    (submit req op).2 = [] := by
  have hv : validRequest req = false := by
    rcases h with h | h | h <;> simp [validRequest, h]
  constructor <;> simp [submit, hv]

/-- Witness for C3 on the empty-item-list request. -/
theorem invalidRequestFailsFast_witness :
    (submit demoEmptyReq demoOkOp).1 =
      Except.error (.validationError "structurally invalid batch request") ∧
    (submit demoEmptyReq demoOkOp).2 = [] :=
  invalidRequestFailsFast demoEmptyReq demoOkOp (Or.inl rfl)

/-- C4: a failing per-item operation is captured as that item's Failure
outcome; the run is a total function returning one outcome per item (no
exception escapes it), and the outcome at any position depends only on the
operation's result for that position's item, so one item's failure cannot
prevent the remaining items from being recorded. -/
theorem perItemErrorsCaptured (items : List WorkItem)
    (op : WorkItem → Except CoreError String) (i : Nat)
    (hi : i < items.length) (e : CoreError)
    (hfail : op items[i] = Except.error e) :
    (runExecutor items op).length = items.length ∧
    (runExecutor items op)[i]? =
      some { itemId := items[i].id, status := ItemStatus.failure e } ∧
    ∀ (op₂ : WorkItem → Except CoreError String) (j : Nat)
      (hj : j < items.length), op items[j] = op₂ items[j] →
      (runExecutor items op)[j]? = (runExecutor items op₂)[j]? := by
  refine ⟨by simp [runExecutor], ?_, ?_⟩
  · simp [runExecutor, List.getElem?_map, List.getElem?_eq_getElem hi,
      hfail, mkOutcome]
  · intro op₂ j hj hagree
    simp [runExecutor, List.getElem?_map, List.getElem?_eq_getElem hj, hagree]

/-- Witness for C4 on a two-item batch whose first item fails. -/
theorem perItemErrorsCaptured_witness :
    (runExecutor [demoItemA, demoItemB] demoFailOp).length = 2 ∧
    (runExecutor [demoItemA, demoItemB] demoFailOp)[0]? =
      some { itemId := "a",
             status := ItemStatus.failure (.externalError "remote down") } ∧
    (runExecutor [demoItemA, demoItemB] demoFailOp)[1]? =
      (runExecutor [demoItemA, demoItemB] demoOkOp)[1]? := by
  obtain ⟨h1, h2, h3⟩ :=
    perItemErrorsCaptured [demoItemA, demoItemB] demoFailOp 0 (by decide)
      (.externalError "remote down") rfl
  exact ⟨h1, h2, h3 demoOkOp 1 (by decide) rfl⟩

/-- C6: an item can be Succeeded only when the resize step was applied to
its composite output and succeeded, and a resize failure is recorded inside
the full outcome list as that item's Failure with the encoding error tag —
not surfaced as a batch-level error. -/
theorem resizeBeforeSuccess (items : List WorkItem)
    (composite : WorkItem → Except String (List Nat))
    (resize : List Nat → Except String String) (i : Nat)
    (hi : i < items.length) :
    (∀ ref : String,
      (runExecutor items (compositeThenResize composite resize))[i]? =
        some { itemId := items[i].id, status := ItemStatus.success ref } →
      ∃ bytes, composite items[i] = Except.ok bytes ∧
        resize bytes = Except.ok ref) ∧
    (∀ (bytes : List Nat) (m : String), composite items[i] = Except.ok bytes →
      resize bytes = Except.error m →
      (runExecutor items (compositeThenResize composite resize)).length =
        items.length ∧
      (runExecutor items (compositeThenResize composite resize))[i]? =
        some { itemId := items[i].id,
               status := ItemStatus.failure (.encodingError m) }) := by
  constructor
  · intro ref href
    rcases hc : composite items[i] with m | bytes
    · simp [runExecutor, List.getElem?_map, List.getElem?_eq_getElem hi,
        compositeThenResize, hc, mkOutcome] at href
    · rcases hr : resize bytes with m | r
      · simp [runExecutor, List.getElem?_map, List.getElem?_eq_getElem hi,
          compositeThenResize, hc, hr, mkOutcome] at href
      · simp [runExecutor, List.getElem?_map, List.getElem?_eq_getElem hi,
          compositeThenResize, hc, hr, mkOutcome] at href
        exact ⟨bytes, rfl, by rw [hr, href]⟩
  · intro bytes m hc hr
    refine ⟨by simp [runExecutor], ?_⟩
    simp [runExecutor, List.getElem?_map, List.getElem?_eq_getElem hi,
      compositeThenResize, hc, hr, mkOutcome]

/-- Witness for C6: the resize collaborator succeeds on one run and fails
on another, and the failing run records the encoding error as the item's
outcome. -/
theorem resizeBeforeSuccess_witness :
    (∃ bytes, demoComposite demoItemA = Except.ok bytes ∧
      demoResizeOk bytes = Except.ok "stored") ∧
    (runExecutor [demoItemA] (compositeThenResize demoComposite demoResizeBad)).length = 1 ∧
    (runExecutor [demoItemA] (compositeThenResize demoComposite demoResizeBad))[0]? =
      some { itemId := "a",
             status := ItemStatus.failure (.encodingError "encode boom") } := by
  obtain ⟨hf, _⟩ :=
    resizeBeforeSuccess [demoItemA] demoComposite demoResizeOk 0 (by decide)
  obtain ⟨_, hb⟩ :=
    resizeBeforeSuccess [demoItemA] demoComposite demoResizeBad 0 (by decide)
  exact ⟨hf "stored" (by decide), hb [1, 2] "encode boom" rfl rfl⟩

/-- Helper: the in-flight bound is an inductive invariant of the worker
pool transition relation. -/
theorem inFlight_le_of_reach (K : Nat) (op : WorkItem → Except CoreError String)
    (s t : SchedState) (h : Relation.ReflTransGen (SchedStep K op) s t)
    (hs : s.inFlight.length ≤ K) : t.inFlight.length ≤ K := by
  induction h with
  | refl => exact hs
  | tail hab hbc ih =>
    cases hbc with
    | start it rest fl d hfree =>
      simp only [List.length_cons]
      omega
    | finish p l₁ l₂ it d =>
      simp only [List.length_append, List.length_cons] at ih ⊢
      omega

/-- C1: in every pool state reachable from the initial state, at most K
items are in flight, and a transition that admits a new item (shrinks the
pending list) is only possible from a state with strictly fewer than K
items in flight — the next item cannot start while K are in flight. -/
theorem concurrencyCapRespected (K : Nat)
    (op : WorkItem → Except CoreError String) (items : List WorkItem)
    (s : SchedState) (hK : 1 ≤ K) (hKN : K ≤ items.length)
    (hreach : Relation.ReflTransGen (SchedStep K op) (initState items) s) :
    s.inFlight.length ≤ K ∧
    ∀ t : SchedState, SchedStep K op s t →
      t.pending.length < s.pending.length → s.inFlight.length < K := by
  constructor
  · exact inFlight_le_of_reach K op _ s hreach (by simp [initState])
  · intro t hstep hlt
    cases hstep with
    | start it rest fl d hfree => exact hfree
    | finish p l₁ l₂ it d => exact absurd hlt (lt_irrefl _)

/-- Witness for C1 with one item and limit 1, instantiated at the initial
state and the transition admitting the first item. -/
theorem concurrencyCapRespected_witness :
    (initState [demoItemA]).inFlight.length ≤ 1 ∧
    (initState [demoItemA]).inFlight.length < 1 := by
  have h :=
    concurrencyCapRespected 1 demoOkOp [demoItemA] (initState [demoItemA])
      (by decide) (by decide) Relation.ReflTransGen.refl
  exact ⟨h.1,
    h.2 { pending := [], inFlight := [demoItemA], settled := [] }
      (SchedStep.start demoItemA [] [] [] (by decide)) (by decide)⟩

/-- Helper: the raw-result path and the processed-result path of one run
are distinct files (their lengths differ). -/
theorem originalPath_ne_processedPath (t : Nat) (q : Option String) :
    originalPathOf t ≠ processedPathOf t q := by
  intro h
  have hl := congrArg String.length h
  simp only [originalPathOf, processedPathOf, originalFilename,
    processedFilename, String.length_append] at hl
  have h1 : ("-" : String).length = 1 := rfl
  have h2 : (".png" : String).length = 4 := rfl
  omega

/-- C7 counterexample: two distinct uploads sharing the original name
cat.png (multer stores them under distinct temp paths), composited in the
same millisecond with the same quality, receive the SAME stored filename,
and both runs write the same processed path — the name is derived from
neither a batch id nor the original name, and the second write silently
overwrites the first. -/
theorem filenameCollision :
    filenameOf (generate "uploads/1-cat.png" "uploads/1-bg.png" (some "2k")
        (Except.ok respInline) 777) =
      filenameOf (generate "uploads/2-cat.png" "uploads/2-bg.png" (some "2k")
        (Except.ok respSmall) 777) ∧
    filenameOf (generate "uploads/1-cat.png" "uploads/1-bg.png" (some "2k")
        (Except.ok respInline) 777) = some "result-777-2k.png" ∧
    StorageOp.write (processedPathOf 777 (some "2k")) ∈
      (generate "uploads/1-cat.png" "uploads/1-bg.png" (some "2k")
        (Except.ok respInline) 777).resultsOps ∧
    StorageOp.write (processedPathOf 777 (some "2k")) ∈
      (generate "uploads/2-cat.png" "uploads/2-bg.png" (some "2k")
        (Except.ok respSmall) 777).resultsOps := by
  refine ⟨rfl, ?_, ?_, ?_⟩ <;> decide

/-- C7 amended: the stored filename is derived deterministically from the
timestamp and the quality field alone — result, timestamp, quality, png —
independent of the uploaded files and their original names; two successful
runs in the same millisecond with the same quality receive the same
filename and write the same processed path. -/
theorem filenameFromTimestampAndQuality (o₁ b₁ o₂ b₂ : String)
    (q : Option String) (t : Nat) (resp₁ resp₂ : ApiResponse)
    (w₁ h₁ w₂ h₂ : Nat) (hs₁ : resp₁.status = 200) (hs₂ : resp₂.status = 200)
    (hi₁ : firstInlineOf resp₁ = some (w₁, h₁))
    (hi₂ : firstInlineOf resp₂ = some (w₂, h₂)) :
    filenameOf (generate o₁ b₁ q (Except.ok resp₁) t) =
      some (processedFilename t q) ∧
    filenameOf (generate o₁ b₁ q (Except.ok resp₁) t) =
      filenameOf (generate o₂ b₂ q (Except.ok resp₂) t) ∧
    StorageOp.write (processedPathOf t q) ∈
      (generate o₁ b₁ q (Except.ok resp₁) t).resultsOps ∧
    StorageOp.write (processedPathOf t q) ∈
      (generate o₂ b₂ q (Except.ok resp₂) t).resultsOps := by
  refine ⟨?_, ?_, ?_, ?_⟩
  · simp [generate, hs₁, hi₁, filenameOf]
  · simp [generate, hs₁, hs₂, hi₁, hi₂, filenameOf]
  · simp [generate, hs₁, hi₁]
  · simp [generate, hs₂, hi₂]

/-- Witness for the amended C7 on two concrete runs at timestamp 778. -/
theorem filenameFromTimestampAndQuality_witness :
    filenameOf (generate "uploads/3-cat.png" "uploads/3-bg.png" (some "4k")
        (Except.ok respInline) 778) = some (processedFilename 778 (some "4k")) ∧
    filenameOf (generate "uploads/3-cat.png" "uploads/3-bg.png" (some "4k")
        (Except.ok respInline) 778) =
      filenameOf (generate "uploads/4-cat.png" "uploads/4-bg.png" (some "4k")
        (Except.ok respSmall) 778) ∧
    StorageOp.write (processedPathOf 778 (some "4k")) ∈
      (generate "uploads/3-cat.png" "uploads/3-bg.png" (some "4k")
        (Except.ok respInline) 778).resultsOps ∧
    StorageOp.write (processedPathOf 778 (some "4k")) ∈
      (generate "uploads/4-cat.png" "uploads/4-bg.png" (some "4k")
        (Except.ok respSmall) 778).resultsOps :=
  filenameFromTimestampAndQuality "uploads/3-cat.png" "uploads/3-bg.png"
    "uploads/4-cat.png" "uploads/4-bg.png" (some "4k") 778 respInline respSmall
    900 600 500 500 rfl rfl rfl rfl

/-- C8 counterexample: during a successful run the results area is read
back (the raw composite file is re-read by the resize step) and a file is
deleted from it — the area is neither write-only nor append-only. -/
theorem resultsAreaReadBack :
    StorageOp.read (originalPathOf 777) ∈
      (generate "uploads/1-cat.png" "uploads/1-bg.png" (some "2k")
        (Except.ok respInline) 777).resultsOps ∧
    StorageOp.delete (originalPathOf 777) ∈
      (generate "uploads/1-cat.png" "uploads/1-bg.png" (some "2k")
        (Except.ok respInline) 777).resultsOps := by
  constructor <;> decide

/-- C8 amended: on every successful run the handler writes the raw result,
reads it back for the resize step, writes the processed file and deletes
the raw file; every read of the results area targets the raw temporary
file, that file is deleted by the end of the run, and the processed output
file itself is never read back. -/
theorem resultsAreaOps (o b : String) (q : Option String) (t : Nat)
    (resp : ApiResponse) (w h : Nat) (hs : resp.status = 200)
    (hi : firstInlineOf resp = some (w, h)) :
    (generate o b q (Except.ok resp) t).resultsOps =
      [StorageOp.write (originalPathOf t), StorageOp.read (originalPathOf t),
       StorageOp.write (processedPathOf t q),
       StorageOp.delete (originalPathOf t)] ∧
    (∀ p : String, StorageOp.read p ∈
      (generate o b q (Except.ok resp) t).resultsOps → p = originalPathOf t) ∧
    StorageOp.delete (originalPathOf t) ∈
      (generate o b q (Except.ok resp) t).resultsOps ∧
    StorageOp.read (processedPathOf t q) ∉
      (generate o b q (Except.ok resp) t).resultsOps := by
  refine ⟨by simp [generate, hs, hi], ?_, by simp [generate, hs, hi], ?_⟩
  · intro p hp
    simp [generate, hs, hi] at hp
    exact hp
  · intro hmem
    simp [generate, hs, hi] at hmem
    exact originalPath_ne_processedPath t q hmem.symm

/-- Witness for the amended C8 on a concrete successful run. -/
theorem resultsAreaOps_witness :
    (generate "uploads/1-cat.png" "uploads/1-bg.png" (some "2k")
        (Except.ok respInline) 9).resultsOps =
      [StorageOp.write (originalPathOf 9), StorageOp.read (originalPathOf 9),
       StorageOp.write (processedPathOf 9 (some "2k")),
       StorageOp.delete (originalPathOf 9)] ∧
    (∀ p : String, StorageOp.read p ∈
      (generate "uploads/1-cat.png" "uploads/1-bg.png" (some "2k")
        (Except.ok respInline) 9).resultsOps → p = originalPathOf 9) ∧
    StorageOp.delete (originalPathOf 9) ∈
      (generate "uploads/1-cat.png" "uploads/1-bg.png" (some "2k")
        (Except.ok respInline) 9).resultsOps ∧
    StorageOp.read (processedPathOf 9 (some "2k")) ∉
      (generate "uploads/1-cat.png" "uploads/1-bg.png" (some "2k")
        (Except.ok respInline) 9).resultsOps :=
  resultsAreaOps "uploads/1-cat.png" "uploads/1-bg.png" (some "2k") 9
    respInline 900 600 rfl rfl

/-- C9: the uploaded temporary files are deleted on the success path and on
the catch (exception) path, but the no-image 500 reply deletes nothing —
both uploads remain on disk on that path. -/
theorem tempFileCleanup (o b : String) (q : Option String) (t : Nat)
    (resp : ApiResponse) (msg : String) :
    (∀ w h : Nat, resp.status = 200 → firstInlineOf resp = some (w, h) →
      (generate o b q (Except.ok resp) t).unlinked =
        [o, b, originalPathOf t]) ∧
    (generate o b q (Except.error msg) t).unlinked = [o, b] ∧
    ((generate o b q (Except.ok resp) t).body = RespBody.noImageError →
      (generate o b q (Except.ok resp) t).status = 500 ∧
      (generate o b q (Except.ok resp) t).unlinked = []) := by
  refine ⟨?_, rfl, ?_⟩
  · intro w h hs hinline
    simp [generate, hs, hinline]
  · intro hbody
    by_cases hs : resp.status = 200
    · rcases hfi : firstInlineOf resp with _ | ⟨w, h⟩
      · rcases hc : resp.candidates with _ | ⟨_ | ⟨c, cs⟩⟩
        · simp [generate, hs, hfi, hc]
        · simp [generate, hs, hfi, hc]
        · rcases hct : c.content with _ | ⟨ct⟩
          · simp [generate, hs, hfi, hc, hct]
          · rcases hp : ct.parts with _ | ⟨ps⟩
            · simp [generate, hs, hfi, hc, hct, hp] at hbody
            · rcases hf : ps.filter partHasText with _ | ⟨p, rest⟩
              · simp [generate, hs, hfi, hc, hct, hp, hf]
              · simp [generate, hs, hfi, hc, hct, hp, hf] at hbody
      · simp [generate, hs, hfi] at hbody
    · simp [generate, hs] at hbody

/-- Witness for C9 on three concrete runs: a successful one, a thrown
error, and a 200 response with no image part. -/
theorem tempFileCleanup_witness :
    (generate "uploads/1-cat.png" "uploads/1-bg.png" (some "2k")
        (Except.ok respInline) 5).unlinked =
      ["uploads/1-cat.png", "uploads/1-bg.png", originalPathOf 5] ∧
    (generate "uploads/1-cat.png" "uploads/1-bg.png" (some "2k")
        (Except.error "boom") 5).unlinked =
      ["uploads/1-cat.png", "uploads/1-bg.png"] ∧
    ((generate "uploads/1-cat.png" "uploads/1-bg.png" (some "2k")
        (Except.ok respNoCand) 5).status = 500 ∧
     (generate "uploads/1-cat.png" "uploads/1-bg.png" (some "2k")
        (Except.ok respNoCand) 5).unlinked = []) := by
  obtain ⟨ha, hb, _⟩ := tempFileCleanup "uploads/1-cat.png" "uploads/1-bg.png"
    (some "2k") 5 respInline "boom"
  obtain ⟨_, _, hn⟩ := tempFileCleanup "uploads/1-cat.png" "uploads/1-bg.png"
    (some "2k") 5 respNoCand "boom"
  exact ⟨ha 900 600 rfl rfl, hb, hn rfl⟩

/-- C10 counterexample: at quality toString the success response reports
undefinedxundefined — the prototype-chain hit has no width or height
fields, so the reported string is not the fixed quality-to-dimension
mapping's WxH (whose default renders 2048x2048) — and the resize runs
unconstrained, storing the image at its own 500 by 500 size. -/
theorem reportedResolutionProtoLeak :
    (generate "o" "b" (some "toString") (Except.ok respSmall) 7).body =
      RespBody.successJson
        ("/results/" ++ processedFilename 7 (some "toString"))
        (processedFilename 7 (some "toString")) "undefinedxundefined" ∧
    "undefinedxundefined" ≠ resolutionString { width := 2048, height := 2048 } ∧
    (generate "o" "b" (some "toString") (Except.ok respSmall) 7).storedDims =
      some (500, 500) := by
  refine ⟨?_, ?_, ?_⟩ <;> decide

/-- C10 amended: the resolution string of a success response is determined
solely by the quality parameter — two successful runs with different actual
image dimensions report the same string — and it equals the fixed mapping's
WxH whenever the lookup yields a dimension record (every quality other than
an inherited Object.prototype member name), while for a prototype member
name it is undefinedxundefined; the stored file's dimensions follow the
image through the fit-inside, no-enlargement resize, so a 500 by 500 result
under quality 2k is stored at 500 by 500 although the response reports
2048x2048. -/
theorem reportedResolutionFromQualityOnly (o b : String) (q : Option String)
    (t : Nat) (resp₁ resp₂ : ApiResponse) (w₁ h₁ w₂ h₂ : Nat)
    (hs₁ : resp₁.status = 200) (hs₂ : resp₂.status = 200)
    (hi₁ : firstInlineOf resp₁ = some (w₁, h₁))
    (hi₂ : firstInlineOf resp₂ = some (w₂, h₂)) :
    (generate o b q (Except.ok resp₁) t).body =
      RespBody.successJson ("/results/" ++ processedFilename t q)
        (processedFilename t q) (resolutionTextOf (getResolution q)) ∧
    (generate o b q (Except.ok resp₁) t).body =
      (generate o b q (Except.ok resp₂) t).body ∧
    (generate o b q (Except.ok resp₁) t).storedDims =
      some (resizeDims (getResolution q) w₁ h₁) ∧
    (∀ r : Resolution, getResolution q = ResolutionValue.dims r →
      resolutionTextOf (getResolution q) = resolutionString r) ∧
    (∀ name : String, getResolution q = ResolutionValue.protoMember name →
      resolutionTextOf (getResolution q) = "undefinedxundefined") ∧
    fitInsideDims 500 500 2048 2048 = (500, 500) ∧
    resolutionString { width := 2048, height := 2048 } = "2048x2048" := by
  refine ⟨?_, ?_, ?_, ?_, ?_, by decide, by decide⟩
  · simp [generate, hs₁, hi₁]
  · simp [generate, hs₁, hs₂, hi₁, hi₂]
  · simp [generate, hs₁, hi₁]
  · intro r hr
    simp [hr, resolutionTextOf, widthText, heightText, resolutionString]
  · intro name hname
    simp [hname, resolutionTextOf, widthText, heightText]

/-- Witness for the amended C10 on a 500 by 500 and a 900 by 600 result
under quality 2k, with the mapping conjunct instantiated at the 2048
record. -/
theorem reportedResolutionFromQualityOnly_witness :
    (generate "o" "b" (some "2k") (Except.ok respSmall) 7).body =
      RespBody.successJson ("/results/" ++ processedFilename 7 (some "2k"))
        (processedFilename 7 (some "2k"))
        (resolutionTextOf (getResolution (some "2k"))) ∧
    (generate "o" "b" (some "2k") (Except.ok respSmall) 7).body =
      (generate "o" "b" (some "2k") (Except.ok respInline) 7).body ∧
    (generate "o" "b" (some "2k") (Except.ok respSmall) 7).storedDims =
      some (resizeDims (getResolution (some "2k")) 500 500) ∧
    resolutionTextOf (getResolution (some "2k")) =
      resolutionString { width := 2048, height := 2048 } ∧
    fitInsideDims 500 500 2048 2048 = (500, 500) ∧
    resolutionString { width := 2048, height := 2048 } = "2048x2048" := by
  obtain ⟨h1, h2, h3, h4, _, h5, h6⟩ :=
    reportedResolutionFromQualityOnly "o" "b" (some "2k") 7 respSmall
      respInline 500 500 900 600 rfl rfl rfl rfl
  exact ⟨h1, h2, h3, h4 { width := 2048, height := 2048 } (by decide), h5, h6⟩

end BackgroundReplacement
